import Mathlib

/-!
Shallow embedding of the SmartRetail inventory optimizer
(`src/agents/inventory_optimizer.py`, class `InventoryOptimizer`) and proofs
about it.  Python floats are modelled as `ℚ` (lifted to `ℝ` where the source
takes a square root), Python ints as `ℤ`, and the per-day random draws of the
simulation (`np.random.random() > exploration_rate`, and the synthesized
demand stream) as explicit inputs, so every run is a pure function of its
inputs.
-/

namespace SmartRetail

/-- Constant `self.holding_cost_rate = 0.02`. -/
def holdingCostRate : ℚ := 2 / 100

/-- Constant `self.stockout_penalty = 0.10`. -/
def stockoutPenalty : ℚ := 1 / 10

/-- Constant `self.ordering_cost = 15.00`. -/
def orderingCost : ℚ := 15

/-- Constant `self.learning_rate = 0.1`. -/
def learningRate : ℚ := 1 / 10

/-- Constant `self.discount_factor = 0.9`. -/
def discountFactor : ℚ := 9 / 10

/-! ### numpy statistics over a list of samples -/

/-- Mean as in `np.mean(l)` for a nonempty list (the sources guard the empty case). -/
def npMean (l : List ℚ) : ℚ := l.sum / l.length

/-- Population variance, the quantity under the square root of `np.std`. -/
def npVar (l : List ℚ) : ℚ := (l.map (fun x => (x - npMean l) ^ 2)).sum / l.length

/-- Standard deviation as in `np.std(l)` (population convention). -/
noncomputable def npStd (l : List ℚ) : ℝ := Real.sqrt (npVar l)

/-! ### `state_to_key` (lines 150-166) -/

/-- Embeds `InventoryOptimizer.state_to_key`: bucket the stock level and concatenate
with the demand level and price band. -/
def state_to_key (stockLevel : ℤ) (demandLevel priceLevel : String) : String :=
  (if stockLevel < 5 then "very_low"
   else if stockLevel < 20 then "low"
   else if stockLevel < 50 then "medium_low"
   else if stockLevel < 100 then "medium"
   else if stockLevel < 200 then "medium_high"
   else "high") ++ "_" ++ demandLevel ++ "_" ++ priceLevel

/-! ### the Q-table (`self.q_values`) -/

/-- Type of `self.q_values`: a finite map from state key to the pair
(`q_values[k]["order"]`, `q_values[k]["wait"]`), modelled as an
association list. -/
abbrev QTable : Type := List (String × (ℚ × ℚ))

/-- Dictionary lookup `self.q_values[k]` / membership `k in self.q_values`. -/
def qLookup : QTable → String → Option (ℚ × ℚ)
  | [], _ => none
  | (k, v) :: rest, key => if k = key then some v else qLookup rest key

/-- Lookup `self.q_values[k]` with both actions defaulting to `0.0`. -/
def qGetD (q : QTable) (k : String) : ℚ × ℚ := (qLookup q k).getD (0, 0)

/-- Inserts the default entry (order 0.0, wait 0.0) for a key not yet in the table. -/
def qInsertDefault (q : QTable) (k : String) : QTable :=
  match qLookup q k with
  | some _ => q
  | none => q ++ [(k, (0, 0))]

/-- Assignment `self.q_values[key] = val` for a key already present. -/
def qSet : QTable → String → (ℚ × ℚ) → QTable
  | [], _, _ => []
  | (k, v) :: rest, key, val =>
    if k = key then (key, val) :: rest else (k, v) :: qSet rest key val

/-- Embeds `InventoryOptimizer.update_policy` (lines 168-184): one-step Q-learning
update `Q(s,a) += α * (reward + γ * max Q(s',·) - Q(s,a))`, inserting missing
keys with value `(0,0)` first.  The action is the source's string
`"order"` / `"wait"`. -/
def update_policy (q : QTable) (sk a : String) (reward : ℚ) (nsk : String) : QTable :=
  let q1 := qInsertDefault (qInsertDefault q sk) nsk
  let cur := qGetD q1 sk
  let nxt := qGetD q1 nsk
  let maxNextQ := max nxt.1 nxt.2
  let currentQ := if a = "order" then cur.1 else cur.2
  let updatedQ := currentQ + learningRate * (reward + discountFactor * maxNextQ - currentQ)
  qSet q1 sk (if a = "order" then (updatedQ, cur.2) else (cur.1, updatedQ))

/-! ### `calculate_optimal_order_quantity` (lines 20-148)

The database reads are abstracted as pre-fetched inputs; the arithmetic after
them is embedded step by step.  `round` on `ℝ` is Mathlib's round-half-up,
matching Python's `round` except on exact halves, which none of the proved
statements touch. -/

/-- Line 53: `avg_demand = max(0.1, demand_stats["avg_demand"])`. -/
def calc_avg_demand (raw : ℚ) : ℚ := max (1 / 10) raw

/-- Line 64: `std_demand = np.std(sales_data) if sales_data else max(1, avg_demand * 0.3)`. -/
noncomputable def calc_std (salesData : List ℚ) (avgDemand : ℚ) : ℝ :=
  if salesData = [] then ((max 1 (avgDemand * (3 / 10)) : ℚ) : ℝ) else npStd salesData

/-- Line 81: `holding_cost = max(0.001, cost * self.holding_cost_rate)`. -/
def calc_holding_cost (cost : ℚ) : ℚ := max (1 / 1000) (cost * holdingCostRate)

/-- Line 82: `annual_demand = avg_demand * 365`. -/
def calc_annual_demand (avgDemand : ℚ) : ℚ := avgDemand * 365

/-- Lines 86-87: `eoq = max(1, round(np.sqrt((2 * annual_demand * ordering_cost) / holding_cost)))`. -/
noncomputable def calc_eoq (avgDemand cost : ℚ) : ℤ :=
  max 1 (round (Real.sqrt
    (((2 * calc_annual_demand avgDemand * orderingCost) / calc_holding_cost cost : ℚ) : ℝ)))

/-- Lines 90-92: `safety_stock = max(0, round(1.96 * std_demand * np.sqrt(lead_time)))`. -/
noncomputable def calc_safety_stock (stdDemand : ℝ) (leadTime : ℕ) : ℤ :=
  max 0 (round ((196 / 100 : ℝ) * stdDemand * Real.sqrt (leadTime : ℝ)))

/-- Lines 95-96: `reorder_point = max(1, round(avg_demand * lead_time + safety_stock))`. -/
def calc_reorder_point (avgDemand : ℚ) (leadTime : ℕ) (safetyStock : ℤ) : ℤ :=
  max 1 (round (avgDemand * (leadTime : ℚ) + (safetyStock : ℚ)))

/-- Demand level bucketing of the calculator (lines 99-104): compares
`std_demand / avg_demand` against 0.5 and 0.2, defaulting to `"medium"`. -/
noncomputable def calc_demand_level (avgDemand : ℚ) (stdDemand : ℝ) : String :=
  if 0 < avgDemand then
    (if (1 / 2 : ℝ) < stdDemand / (avgDemand : ℝ) then "high"
     else if stdDemand / (avgDemand : ℝ) < (1 / 5 : ℝ) then "low"
     else "medium")
  else "medium"

/-- Price band of the calculator (lines 106-111): compares `price / cost`
against 2 and 1.5, defaulting to `"medium"` when `cost <= 0`.
(The source calls this `price_ratio`.) -/
def calc_price_level (price cost : ℚ) : String :=
  if 0 < cost then
    (if 2 < price / cost then "high"
     else if price / cost < 3 / 2 then "low"
     else "medium")
  else "medium"

/-- The calculator's decision (lines 116-127): classical trigger
`current_stock <= reorder_point`, overridden by the Q-table only when the
state key is known, the exploitation draw succeeded
(`np.random.random() > exploration_rate`, modelled by `exploit`), and one
action's value exceeds the other's by more than 10. -/
def calc_should_order (currentStock reorderPoint : ℤ) (q : QTable) (sk : String)
    (exploit : Bool) : Bool :=
  let soClassical := decide (currentStock ≤ reorderPoint)
  match qLookup q sk with
  | some qv =>
    if exploit then
      (if qv.1 > qv.2 + 10 then true
       else if qv.2 > qv.1 + 10 then false
       else soClassical)
    else soClassical
  | none => soClassical

/-- The calculator's order quantity (lines 130-133):
`max(0, eoq - current_stock + reorder_point)` when ordering, else 0. -/
def calc_order_quantity (shouldOrder : Bool) (eoq currentStock reorderPoint : ℤ) : ℤ :=
  if shouldOrder then max 0 (eoq - currentStock + reorderPoint) else 0

/-- Pre-fetched database rows consumed by `calculate_optimal_order_quantity`:
`priceCost` is the joined pricing/supplier row (lines 28-34), `avgDemand` the
`AVG(units_sold)` aggregate (lines 43-48), `salesData` the raw `units_sold`
rows, `stockLevel` the inventory row, `leadTimeOpt` the `MIN(lead_time)` row.
`exploit` is the day's draw `np.random.random() > self.exploration_rate`. -/
structure CalcInputs where
  priceCost : Option (ℚ × ℚ)
  avgDemand : Option ℚ
  salesData : List ℚ
  stockLevel : Option ℤ
  leadTimeOpt : Option ℕ
  exploit : Bool
  q : QTable

/-- The successful payload of `calculate_optimal_order_quantity`
(lines 135-145). -/
structure CalcResult where
  orderQuantity : ℤ
  reorderPoint : ℤ
  economicOrderQuantity : ℤ
  safetyStock : ℤ
  avgDemand : ℚ
  leadTime : ℕ
  currentStock : ℤ
  shouldOrder : Bool
  stateKey : String

/-- Embeds `InventoryOptimizer.calculate_optimal_order_quantity`: the two early
returns for missing pricing/supplier data and missing sales history become
`Except.error` with the source's messages; otherwise the classical EOQ
pipeline runs and the blended decision is returned. -/
noncomputable def calculate_optimal_order_quantity (i : CalcInputs) : Except String CalcResult :=
  match i.priceCost with
  | none => .error "No pricing or supplier data"
  | some pc =>
    match i.avgDemand with
    | none => .error "Insufficient sales history"
    | some raw =>
      let price := pc.1
      let cost := pc.2
      let avgDemand := calc_avg_demand raw
      let stdDemand := calc_std i.salesData avgDemand
      let currentStock := i.stockLevel.getD 0
      let leadTime := i.leadTimeOpt.getD 7
      let eoq := calc_eoq avgDemand cost
      let safetyStock := calc_safety_stock stdDemand leadTime
      let reorderPoint := calc_reorder_point avgDemand leadTime safetyStock
      let sk := state_to_key currentStock
        (calc_demand_level avgDemand stdDemand) (calc_price_level price cost)
      let shouldOrder := calc_should_order currentStock reorderPoint i.q sk i.exploit
      let qty := calc_order_quantity shouldOrder eoq currentStock reorderPoint
      .ok { orderQuantity := qty, reorderPoint := reorderPoint,
            economicOrderQuantity := eoq, safetyStock := safetyStock,
            avgDemand := avgDemand, leadTime := leadTime,
            currentStock := currentStock, shouldOrder := shouldOrder, stateKey := sk }

/-! ### `simulate_policy` (lines 186-366)

The per-day loop is embedded as a step function on an explicit state.  The
loop re-runs `calculate_optimal_order_quantity(product_id, store_id)` each day
(line 276) but reads only `reorder_point` and `economic_order_quantity` from
it; those two fields do not depend on the per-call random draw and the
database does not change during a run, so they are constant across the days
of one run and enter the loop as the parameters `reorderPoint` / `eoq`
(0 and 0 when the inner call returns its error dictionary, per `.get`'s
defaults on lines 277 and 291).  `std_demand` (line 220) parameterizes only
the unmodelled `np.random.normal` synthesis, whose output enters as the
`synthDemand` input. -/

/-- Value `mean_demand` of `simulate_policy` (lines 214-219): 10 when there is no
sales history, otherwise `np.mean(demand_history)`. -/
def sim_mean_demand (demandHistory : List ℤ) : ℚ :=
  if demandHistory = [] then 10 else npMean (demandHistory.map (fun (z : ℤ) => (z : ℚ)))

/-- Value `std_demand` of `simulate_policy` (lines 214-220): 3 when there is no
sales history, otherwise `max(1, np.std(demand_history))`. -/
noncomputable def sim_std_demand (demandHistory : List ℤ) : ℝ :=
  if demandHistory = [] then 3 else max 1 (npStd (demandHistory.map (fun (z : ℤ) => (z : ℚ))))

/-- Demand level of the simulation loop (line 267): compares the day's demand
against `mean_demand * 1.2` and `mean_demand * 0.8`. -/
def simDemandLevel (demand : ℤ) (meanDemand : ℚ) : String :=
  if meanDemand * (12 / 10) < (demand : ℚ) then "high"
  else if (demand : ℚ) < meanDemand * (8 / 10) then "low"
  else "medium"

/-- Price band of the simulation loop (line 268): compares `price` against
`cost * 2` and `cost * 1.5` directly (no positivity guard, unlike the
calculator).  (The source calls this `price_ratio`.) -/
def sim_price_level (price cost : ℚ) : String :=
  if cost * 2 < price then "high"
  else if price < cost * (3 / 2) then "low"
  else "medium"

/-- Run-constant parameters of the simulation loop. -/
structure LoopParams where
  price : ℚ
  cost : ℚ
  meanDemand : ℚ
  leadTime : ℕ
  reorderPoint : ℤ
  eoq : ℤ
deriving DecidableEq

/-- Mutable state of the simulation loop (lines 237-245 initialize it). -/
structure SimState where
  stock : ℤ
  daysToDelivery : ℕ
  pendingDelivery : ℤ
  totalProfit : ℚ
  stockoutDays : ℕ
  holdingCostTotal : ℚ
  orderingCostTotal : ℚ
  revenueTotal : ℚ
  q : QTable
deriving DecidableEq

/-- One element of `daily_results` (lines 322-333). -/
structure DayRecord where
  day : ℕ
  demand : ℤ
  sold : ℤ
  missed : ℤ
  stock : ℤ
  ordered : ℤ
  revenue : ℚ
  profit : ℚ
  action : String
  state : String
deriving DecidableEq

/-- Delivery processing at the top of each simulated day (lines 260-264):
decrement a positive counter and, when it reaches zero, add the pending
delivery to stock. -/
def deliveryPhase (s : SimState) : SimState :=
  if 0 < s.daysToDelivery then
    let d := s.daysToDelivery - 1
    if d = 0 then
      { s with daysToDelivery := 0, stock := s.stock + s.pendingDelivery,
               pendingDelivery := 0 }
    else { s with daysToDelivery := d }
  else s

/-- Units added to stock by `deliveryPhase` on this day: the pending delivery
exactly when the counter stands at 1, else nothing. -/
def delivered_amount (s : SimState) : ℤ :=
  if s.daysToDelivery = 1 then s.pendingDelivery else 0

/-- The state key the loop computes for the day (line 269), from the
post-delivery stock. -/
def sim_state_key (p : LoopParams) (demand stock : ℤ) : String :=
  state_to_key stock (simDemandLevel demand p.meanDemand) (sim_price_level p.price p.cost)

/-- The loop's decision (lines 277-287), taken on the post-delivery state `s`:
classical trigger `stock <= reorder_point and days_to_delivery == 0`, replaced
by `q_order > q_wait` (no margin) when the state key is in the Q-table and the
exploitation draw succeeded. -/
def sim_should_order (p : LoopParams) (s : SimState) (sk : String) (exploit : Bool) : Bool :=
  let soEoq := decide (s.stock ≤ p.reorderPoint) && decide (s.daysToDelivery = 0)
  match qLookup s.q sk with
  | some qv => if exploit then decide (qv.2 < qv.1) else soEoq
  | none => soEoq

/-- The combined guard of line 290, `should_order and days_to_delivery == 0`,
evaluated on the post-delivery state. -/
def sim_do_order (p : LoopParams) (demands : List ℤ) (day : ℕ) (exploit : Bool)
    (s0 : SimState) : Bool :=
  let s := deliveryPhase s0
  sim_should_order p s (sim_state_key p (demands.getD day 0) s.stock) exploit &&
    decide (s.daysToDelivery = 0)

/-- One simulated day (lines 255-344): delivery, state key, blended decision,
order placement, fulfilment, financials, `DayRecord`, Q-update. -/
def simStep (p : LoopParams) (demands : List ℤ) (days day : ℕ) (exploit : Bool)
    (s0 : SimState) : SimState × DayRecord :=
  let demand := demands.getD day 0
  let s := deliveryPhase s0
  let sk := sim_state_key p demand s.stock
  let doOrder := sim_do_order p demands day exploit s0
  let orderQuantity : ℤ := if doOrder then p.eoq else 0
  let action := if doOrder then "order" else "wait"
  let dtd1 := if doOrder then p.leadTime else s.daysToDelivery
  let pending1 := if doOrder then orderQuantity else s.pendingDelivery
  let orderingTotal1 := if doOrder then s.orderingCostTotal + orderingCost
                        else s.orderingCostTotal
  let sold := min s.stock demand
  let missed := demand - sold
  let stock2 := s.stock - sold
  let revenue := (sold : ℚ) * p.price
  let cogs := (sold : ℚ) * p.cost
  let holdingCost := (stock2 : ℚ) * (p.cost * holdingCostRate / 365)
  let stockoutCost := (missed : ℚ) * (p.price * stockoutPenalty)
  let dayProfit := revenue - cogs - holdingCost - stockoutCost -
                   (if doOrder then orderingCost else 0)
  let r : DayRecord :=
    { day := day + 1, demand := demand, sold := sold, missed := missed,
      stock := stock2, ordered := if doOrder then orderQuantity else 0,
      revenue := revenue, profit := dayProfit, action := action, state := sk }
  let nextDemand := demands.getD (min (day + 1) (days - 1)) 0
  let nsk := sim_state_key p nextDemand stock2
  let q1 := update_policy s.q sk action dayProfit nsk
  ({ stock := stock2, daysToDelivery := dtd1, pendingDelivery := pending1,
     totalProfit := s.totalProfit + dayProfit,
     stockoutDays := s.stockoutDays + (if 0 < missed then 1 else 0),
     holdingCostTotal := s.holdingCostTotal + holdingCost,
     orderingCostTotal := orderingTotal1,
     revenueTotal := s.revenueTotal + revenue, q := q1 }, r)

/-- Iterate `simStep` from day `day` for `fuel` further days, collecting the
day records in order. -/
def simFrom (p : LoopParams) (demands : List ℤ) (days : ℕ) (explore : ℕ → Bool) :
    ℕ → ℕ → SimState → SimState × List DayRecord
  | _, 0, s => (s, [])
  | day, fuel + 1, s =>
    let sr := simStep p demands days day (explore day) s
    let rest := simFrom p demands days explore (day + 1) fuel sr.1
    (rest.1, sr.2 :: rest.2)

/-- The run as a list of (state at the start of the day, that day's record). -/
def simTrace (p : LoopParams) (demands : List ℤ) (days : ℕ) (explore : ℕ → Bool) :
    ℕ → ℕ → SimState → List (SimState × DayRecord)
  | _, 0, _ => []
  | day, fuel + 1, s =>
    (s, (simStep p demands days day (explore day) s).2) ::
      simTrace p demands days explore (day + 1) fuel
        (simStep p demands days day (explore day) s).1

/-- Pre-fetched database rows consumed by `simulate_policy` (lines 190-234). -/
structure SimInputs where
  priceCost : Option (ℚ × ℚ)
  demandHistory : List ℤ
  stockLevel : Option ℤ
  leadTimeOpt : Option ℕ

/-- The successful payload of `simulate_policy` (lines 353-363). -/
structure SimResult where
  totalProfit : ℚ
  revenue : ℚ
  stockoutDays : ℕ
  serviceLevel : ℚ
  holdingCost : ℚ
  orderingCost : ℚ
  inventoryTurnover : ℚ
  finalStock : ℤ
  dailyResults : List DayRecord
deriving DecidableEq

/-- Embeds `InventoryOptimizer.simulate_policy`: missing pricing/supplier data is the
sole early error return (lines 201-202); missing sales history falls back to
`mean_demand = 10`, `std_demand = 3` (lines 214-217) and the run proceeds.
`explore day` is the day's draw `np.random.random() > exploration_rate`,
`synthDemand` the synthesized demand stream used when fewer history rows than
`days` exist (line 252), `qInit` the optimizer's `self.q_values` at entry, and
`reorderPoint` / `eoq` the run-constant fields read from the inner
`calculate_optimal_order_quantity` call. -/
def simulate_policy (inp : SimInputs) (days : ℕ) (reorderPoint eoq : ℤ)
    (explore : ℕ → Bool) (synthDemand : List ℤ) (qInit : QTable) :
    Except String SimResult :=
  match inp.priceCost with
  | none => .error "No pricing or supplier data available"
  | some pc =>
    let price := pc.1
    let cost := pc.2
    let meanDemand := sim_mean_demand inp.demandHistory
    let currentStock := inp.stockLevel.getD 50
    let leadTime := inp.leadTimeOpt.getD 7
    let demands := if days ≤ inp.demandHistory.length
                   then inp.demandHistory.take days else synthDemand
    let p : LoopParams :=
      { price := price, cost := cost, meanDemand := meanDemand,
        leadTime := leadTime, reorderPoint := reorderPoint, eoq := eoq }
    let init : SimState :=
      { stock := currentStock, daysToDelivery := 0, pendingDelivery := 0,
        totalProfit := 0, stockoutDays := 0, holdingCostTotal := 0,
        orderingCostTotal := 0, revenueTotal := 0, q := qInit }
    let fin := simFrom p demands days explore 0 days init
    let serviceLevel : ℚ := if 0 < days then 1 - (fin.1.stockoutDays : ℚ) / (days : ℚ) else 0
    let avgInventory : ℚ := if 0 < currentStock + fin.1.stock
                            then ((currentStock + fin.1.stock : ℤ) : ℚ) / 2 else 1
    let turnover : ℚ := if 0 < cost ∧ 0 < avgInventory
                        then fin.1.revenueTotal / (cost * avgInventory) else 0
    .ok { totalProfit := fin.1.totalProfit, revenue := fin.1.revenueTotal,
          stockoutDays := fin.1.stockoutDays, serviceLevel := serviceLevel,
          holdingCost := fin.1.holdingCostTotal,
          orderingCost := fin.1.orderingCostTotal,
          inventoryTurnover := turnover, finalStock := fin.1.stock,
          dailyResults := fin.2 }

/-- The value of `days_to_delivery` at the moment the ordering decision is
taken (after the delivery phase has decremented it). -/
def dtd_at_decision (s : SimState) : ℕ := (deliveryPhase s).daysToDelivery

/-- Whether a `simulate_policy` outcome is a `SimulationResult` rather than
the `{"error": ...}` dictionary. -/
def exceptIsOk : Except String SimResult → Bool
  | .ok _ => true
  | .error _ => false

/-! ### Concrete run data used to instantiate the theorems -/

/-- A small concrete parameter set: lead time 2, reorder point 5, EOQ 4. -/
def demoP : LoopParams :=
  { price := 2, cost := 1, meanDemand := 1, leadTime := 2, reorderPoint := 5, eoq := 4 }

/-- A two-day demand feed. -/
def demoDemands : List ℤ := [1, 1]

/-- An exploration stream that always follows the classical trigger. -/
def demoExplore : ℕ → Bool := fun _ => false

/-- Initial state: 1 unit in stock, nothing pending, empty Q-table. -/
def demoS : SimState :=
  { stock := 1, daysToDelivery := 0, pendingDelivery := 0, totalProfit := 0,
    stockoutDays := 0, holdingCostTotal := 0, orderingCostTotal := 0,
    revenueTotal := 0, q := [] }

/-- The state after day 0 of the demo run (an order was placed). -/
def demoS1 : SimState := (simStep demoP demoDemands 2 0 (demoExplore 0) demoS).1

/-- Day 0 of the demo run paired with its start state. -/
def demoPr0 : SimState × DayRecord :=
  (demoS, (simStep demoP demoDemands 2 0 (demoExplore 0) demoS).2)

/-- Day 1 of the demo run paired with its start state (a delivery is pending). -/
def demoPr1 : SimState × DayRecord :=
  (demoS1, (simStep demoP demoDemands 2 1 (demoExplore 1) demoS1).2)

/-- Parameters with zero lead time (for the lost-delivery behaviour). -/
def zeroLeadP : LoopParams :=
  { price := 2, cost := 1, meanDemand := 1, leadTime := 0, reorderPoint := 5, eoq := 4 }

/-- A state two days from delivery of 5 pending units. -/
def pendingS : SimState :=
  { stock := 1, daysToDelivery := 2, pendingDelivery := 5, totalProfit := 0,
    stockoutDays := 0, holdingCostTotal := 0, orderingCostTotal := 0,
    revenueTotal := 0, q := [] }

/-- Sim-loop parameters matching the C5 scenario (price 12, cost 5). -/
def marginP : LoopParams :=
  { price := 12, cost := 5, meanDemand := 10, leadTime := 7, reorderPoint := 70, eoq := 100 }

/-- A demand feed equal to `marginP`'s mean demand, so the day's demand level
is `"medium"`. -/
def marginDemands : List ℤ := [10, 10]

/-- A state holding a sub-margin Q-entry (order 5, wait 0) for its own state
key, with stock 100 strictly above the reorder point 70. -/
def marginS : SimState :=
  { stock := 100, daysToDelivery := 0, pendingDelivery := 0, totalProfit := 0,
    stockoutDays := 0, holdingCostTotal := 0, orderingCostTotal := 0,
    revenueTotal := 0, q := [("medium_high_medium_high", (5, 0))] }

/-- A stocked-out state with an empty Q-table (classical trigger fires). -/
def emptyQS : SimState :=
  { stock := 0, daysToDelivery := 0, pendingDelivery := 0, totalProfit := 0,
    stockoutDays := 0, holdingCostTotal := 0, orderingCostTotal := 0,
    revenueTotal := 0, q := [] }

/-- Simulation inputs with pricing/supplier data but no sales history. -/
def noHistoryInputs : SimInputs :=
  { priceCost := some (12, 5), demandHistory := [], stockLevel := some 50,
    leadTimeOpt := some 7 }

/-- Simulation inputs with no pricing/supplier row. -/
def noPricingInputs : SimInputs :=
  { priceCost := none, demandHistory := [1, 2], stockLevel := some 50,
    leadTimeOpt := some 7 }

/-! ### Helper lemmas: the delivery phase and the step function -/

theorem deliveryPhase_daysToDelivery (s : SimState) :
    (deliveryPhase s).daysToDelivery = s.daysToDelivery - 1 := by
  unfold deliveryPhase
  by_cases h1 : 0 < s.daysToDelivery
  · by_cases h2 : s.daysToDelivery - 1 = 0
    · simp [h1, h2]
    · simp [h1, h2]
  · simp [h1]
    omega

theorem deliveryPhase_stock (s : SimState) :
    (deliveryPhase s).stock = s.stock + delivered_amount s := by
  unfold deliveryPhase delivered_amount
  by_cases h1 : 0 < s.daysToDelivery
  · by_cases h2 : s.daysToDelivery - 1 = 0
    · have h3 : s.daysToDelivery = 1 := by omega
      simp [h1, h2, h3]
    · have h3 : ¬s.daysToDelivery = 1 := by omega
      simp [h1, h2, h3]
  · have h3 : ¬s.daysToDelivery = 1 := by omega
    simp [h1, h3]

theorem deliveryPhase_pendingDelivery (s : SimState) :
    (deliveryPhase s).pendingDelivery =
      if s.daysToDelivery = 1 then 0 else s.pendingDelivery := by
  unfold deliveryPhase
  by_cases h1 : 0 < s.daysToDelivery
  · by_cases h2 : s.daysToDelivery - 1 = 0
    · have h3 : s.daysToDelivery = 1 := by omega
      simp [h1, h2, h3]
    · have h3 : ¬s.daysToDelivery = 1 := by omega
      simp [h1, h2, h3]
  · have h3 : ¬s.daysToDelivery = 1 := by omega
    simp [h1, h3]

theorem deliveryPhase_q (s : SimState) : (deliveryPhase s).q = s.q := by
  unfold deliveryPhase
  by_cases h1 : 0 < s.daysToDelivery
  · by_cases h2 : s.daysToDelivery - 1 = 0
    · simp [h1, h2]
    · simp [h1, h2]
  · simp [h1]

theorem deliveryPhase_orderingCostTotal (s : SimState) :
    (deliveryPhase s).orderingCostTotal = s.orderingCostTotal := by
  unfold deliveryPhase
  by_cases h1 : 0 < s.daysToDelivery
  · by_cases h2 : s.daysToDelivery - 1 = 0
    · simp [h1, h2]
    · simp [h1, h2]
  · simp [h1]

theorem simStep_snd_action (p : LoopParams) (demands : List ℤ) (days day : ℕ)
    (exploit : Bool) (s0 : SimState) :
    (simStep p demands days day exploit s0).2.action =
      if sim_do_order p demands day exploit s0 then "order" else "wait" := rfl

theorem simStep_snd_demand (p : LoopParams) (demands : List ℤ) (days day : ℕ)
    (exploit : Bool) (s0 : SimState) :
    (simStep p demands days day exploit s0).2.demand = demands.getD day 0 := rfl

theorem simStep_snd_sold (p : LoopParams) (demands : List ℤ) (days day : ℕ)
    (exploit : Bool) (s0 : SimState) :
    (simStep p demands days day exploit s0).2.sold =
      min (deliveryPhase s0).stock (demands.getD day 0) := rfl

theorem simStep_snd_missed (p : LoopParams) (demands : List ℤ) (days day : ℕ)
    (exploit : Bool) (s0 : SimState) :
    (simStep p demands days day exploit s0).2.missed =
      demands.getD day 0 - min (deliveryPhase s0).stock (demands.getD day 0) := rfl

theorem simStep_snd_stock (p : LoopParams) (demands : List ℤ) (days day : ℕ)
    (exploit : Bool) (s0 : SimState) :
    (simStep p demands days day exploit s0).2.stock =
      (deliveryPhase s0).stock - min (deliveryPhase s0).stock (demands.getD day 0) := rfl

theorem simStep_fst_stock (p : LoopParams) (demands : List ℤ) (days day : ℕ)
    (exploit : Bool) (s0 : SimState) :
    (simStep p demands days day exploit s0).1.stock =
      (deliveryPhase s0).stock - min (deliveryPhase s0).stock (demands.getD day 0) := rfl

theorem simStep_fst_daysToDelivery (p : LoopParams) (demands : List ℤ) (days day : ℕ)
    (exploit : Bool) (s0 : SimState) :
    (simStep p demands days day exploit s0).1.daysToDelivery =
      if sim_do_order p demands day exploit s0 then p.leadTime
      else (deliveryPhase s0).daysToDelivery := rfl

theorem simStep_fst_pendingDelivery (p : LoopParams) (demands : List ℤ) (days day : ℕ)
    (exploit : Bool) (s0 : SimState) :
    (simStep p demands days day exploit s0).1.pendingDelivery =
      if sim_do_order p demands day exploit s0 then p.eoq
      else (deliveryPhase s0).pendingDelivery := by
  cases h : sim_do_order p demands day exploit s0 <;> simp [simStep, h]

theorem simStep_fst_orderingCostTotal (p : LoopParams) (demands : List ℤ) (days day : ℕ)
    (exploit : Bool) (s0 : SimState) :
    (simStep p demands days day exploit s0).1.orderingCostTotal =
      if sim_do_order p demands day exploit s0 then
        (deliveryPhase s0).orderingCostTotal + orderingCost
      else (deliveryPhase s0).orderingCostTotal := rfl

theorem simStep_snd_ordered (p : LoopParams) (demands : List ℤ) (days day : ℕ)
    (exploit : Bool) (s0 : SimState) :
    (simStep p demands days day exploit s0).2.ordered =
      if sim_do_order p demands day exploit s0 then p.eoq else 0 := by
  cases h : sim_do_order p demands day exploit s0 <;> simp [simStep, h]

theorem sim_do_order_eq_false {s0 : SimState}
    (h : (deliveryPhase s0).daysToDelivery ≠ 0) (p : LoopParams) (demands : List ℤ)
    (day : ℕ) (exploit : Bool) :
    sim_do_order p demands day exploit s0 = false := by
  unfold sim_do_order
  simp [h]

theorem sim_do_order_dtd {p : LoopParams} {demands : List ℤ} {day : ℕ}
    {exploit : Bool} {s0 : SimState}
    (h : sim_do_order p demands day exploit s0 = true) :
    (deliveryPhase s0).daysToDelivery = 0 := by
  unfold sim_do_order at h
  simp only [Bool.and_eq_true, decide_eq_true_eq] at h
  exact h.2

/-! ### Helper lemmas: statistics of constant samples -/

theorem npMean_replicate (n : ℕ) (x : ℚ) : npMean (List.replicate (n + 1) x) = x := by
  have hne : ((n : ℚ) + 1) ≠ 0 := by positivity
  simp [npMean, List.sum_replicate, nsmul_eq_mul]
  field_simp

theorem npVar_replicate (n : ℕ) (x : ℚ) : npVar (List.replicate n x) = 0 := by
  cases n with
  | zero => simp [npVar]
  | succ m =>
    simp [npVar, List.map_replicate, npMean_replicate, List.sum_replicate]

theorem npStd_replicate (n : ℕ) (x : ℚ) : npStd (List.replicate n x) = 0 := by
  unfold npStd
  rw [npVar_replicate]
  simp

theorem calc_std_replicate (n : ℕ) (x avg : ℚ) :
    calc_std (List.replicate (n + 1) x) avg = 0 := by
  unfold calc_std
  rw [if_neg (by simp), npStd_replicate]

theorem sim_std_demand_replicate (n : ℕ) (x : ℤ) :
    sim_std_demand (List.replicate (n + 1) x) = 1 := by
  unfold sim_std_demand
  rw [if_neg (by simp), List.map_replicate, npStd_replicate]
  exact max_eq_left (by norm_num)

/-! ### Helper lemmas: the concrete EOQ computation -/

theorem eoq_radicand :
    ((2 * calc_annual_demand 10 * orderingCost) / calc_holding_cost 5 : ℚ) = 1095000 := by
  have h : calc_holding_cost 5 = 1 / 10 := by
    unfold calc_holding_cost holdingCostRate
    norm_num
  rw [h]
  norm_num [calc_annual_demand, orderingCost]

theorem round_sqrt_1095000 : round (Real.sqrt 1095000) = 1046 := by
  have h1 : (1046 : ℝ) ≤ Real.sqrt 1095000 := by
    rw [show (1046 : ℝ) = Real.sqrt (1046 ^ 2) from (Real.sqrt_sq (by norm_num)).symm]
    exact Real.sqrt_le_sqrt (by norm_num)
  have h2 : Real.sqrt 1095000 < 1046.5 := by
    rw [Real.sqrt_lt' (by norm_num)]
    norm_num
  rw [round_eq, Int.floor_eq_iff]
  constructor
  · push_cast
    linarith
  · push_cast
    linarith

theorem calc_eoq_10_5 : calc_eoq 10 5 = 1046 := by
  unfold calc_eoq
  rw [eoq_radicand]
  have hc : ((1095000 : ℚ) : ℝ) = (1095000 : ℝ) := by norm_cast
  rw [hc, round_sqrt_1095000]
  decide

theorem calc_safety_stock_zero (lt : ℕ) : calc_safety_stock 0 lt = 0 := by
  unfold calc_safety_stock
  simp

theorem calc_reorder_point_10_7 : calc_reorder_point 10 7 0 = 70 := by
  unfold calc_reorder_point
  have h : ((10 : ℚ) * ((7 : ℕ) : ℚ) + ((0 : ℤ) : ℚ)) = 70 := by push_cast; ring
  rw [h]
  have hr : round ((70 : ℚ)) = 70 := by
    rw [round_eq, Int.floor_eq_iff]
    constructor <;> norm_num
  rw [hr]
  exact max_eq_right (by norm_num)

/-! ### C4 -/

/-- C4 counterexample: for the non-empty zero-variance sample `[10]*30` the
calculator's `std_demand` is `np.std = 0`, not the claimed clamp
`max(1.0, mean_demand * 0.3) = 3`. -/
theorem C4_counterexample :
    calc_std (List.replicate 30 (10 : ℚ)) (calc_avg_demand 10) = 0 ∧
    max (1 : ℚ) (calc_avg_demand 10 * (3 / 10)) = 3 ∧
    (0 : ℝ) ≠ ((3 : ℚ) : ℝ) := by
  refine ⟨?_, by norm_num [calc_avg_demand], by norm_num⟩
  exact calc_std_replicate 29 (10 : ℚ) (calc_avg_demand 10)

/-- C4 amended: a non-empty zero-variance sample yields `std_demand = 0` in
`calculate_optimal_order_quantity` (raw `np.std`, no clamp) and
`max(1, np.std) = 1` in `simulate_policy`; the `max(1, mean*0.3)` fallback
applies only when the calculator's sales list is empty; the defaults
`mean = 10`, `std = 3` are `simulate_policy`'s empty-history fallback; and
`mean_demand` is floored at 0.1 in the calculator. -/
theorem C4_amended_thm :
    (∀ (n : ℕ) (x avg : ℚ), calc_std (List.replicate (n + 1) x) avg = 0) ∧
    (∀ avg : ℚ, calc_std [] avg = ((max 1 (avg * (3 / 10)) : ℚ) : ℝ)) ∧
    sim_mean_demand [] = 10 ∧
    sim_std_demand [] = 3 ∧
    (∀ (n : ℕ) (x : ℤ), sim_std_demand (List.replicate (n + 1) x) = 1) ∧
    (∀ raw : ℚ, calc_avg_demand raw = max (1 / 10) raw) := by
  refine ⟨calc_std_replicate, fun avg => ?_, by simp [sim_mean_demand],
    by simp [sim_std_demand], sim_std_demand_replicate, fun raw => rfl⟩
  unfold calc_std
  simp

/-! ### C5 -/

/-- C5 counterexample: at the claim's own inputs the EOQ that
`round(sqrt(2*3650*15/0.10))` produces is 1046, not the claimed 1044. -/
theorem C5_counterexample : calc_eoq 10 5 = 1046 ∧ calc_eoq 10 5 ≠ 1044 := by
  refine ⟨calc_eoq_10_5, ?_⟩
  rw [calc_eoq_10_5]
  decide

/-- C5 amended: with demand history `[10]*30` (so `avg_demand = 10`,
`std_demand = 0`), `unit_cost = 5`, `lead_time = 7`: `holding_cost = 0.10`,
`annual_demand = 3650`, `EOQ = round(sqrt(2*3650*15/0.10)) = 1046`,
`safety_stock = 0`, `reorder_point = 70`. -/
theorem C5_amended_thm :
    calc_avg_demand (npMean (List.replicate 30 (10 : ℚ))) = 10 ∧
    calc_std (List.replicate 30 (10 : ℚ)) 10 = 0 ∧
    calc_holding_cost 5 = 1 / 10 ∧
    calc_annual_demand 10 = 3650 ∧
    calc_eoq 10 5 = 1046 ∧
    calc_safety_stock (calc_std (List.replicate 30 (10 : ℚ)) 10) 7 = 0 ∧
    calc_reorder_point 10 7 0 = 70 := by
  have hstd : calc_std (List.replicate 30 (10 : ℚ)) 10 = 0 :=
    calc_std_replicate 29 (10 : ℚ) 10
  refine ⟨?_, hstd, ?_, by norm_num [calc_annual_demand], calc_eoq_10_5, ?_, calc_reorder_point_10_7⟩
  · rw [show List.replicate 30 (10 : ℚ) = List.replicate (29 + 1) (10 : ℚ) from rfl,
      npMean_replicate]
    unfold calc_avg_demand
    exact max_eq_right (by norm_num)
  · unfold calc_holding_cost holdingCostRate
    norm_num
  · rw [hstd]
    exact calc_safety_stock_zero 7

/-! ### Helper lemmas: guards, conservation, and countdown of the loop -/

theorem simStep_snd_stock_eq_fst (p : LoopParams) (demands : List ℤ) (days day : ℕ)
    (exploit : Bool) (s0 : SimState) :
    (simStep p demands days day exploit s0).2.stock =
      (simStep p demands days day exploit s0).1.stock := rfl

theorem action_order_do {p : LoopParams} {demands : List ℤ} {days day : ℕ}
    {exploit : Bool} {s0 : SimState}
    (h : (simStep p demands days day exploit s0).2.action = "order") :
    sim_do_order p demands day exploit s0 = true := by
  rw [simStep_snd_action] at h
  cases hdo : sim_do_order p demands day exploit s0
  · rw [hdo] at h
    simp only [if_neg Bool.false_ne_true] at h
    exact absurd h (by decide)
  · rfl

theorem simStep_guard (p : LoopParams) (demands : List ℤ) (days day : ℕ)
    (exploit : Bool) (s0 : SimState) :
    ((simStep p demands days day exploit s0).2.action = "order" →
      dtd_at_decision s0 = 0) ∧
    (dtd_at_decision s0 ≠ 0 →
      (simStep p demands days day exploit s0).2.action = "wait" ∧
      (simStep p demands days day exploit s0).2.ordered = 0) := by
  unfold dtd_at_decision
  constructor
  · intro h
    exact sim_do_order_dtd (action_order_do h)
  · intro h
    have hdo := sim_do_order_eq_false h p demands day exploit
    rw [simStep_snd_action, simStep_snd_ordered, hdo]
    simp

theorem simTrace_mem_step {p : LoopParams} {demands : List ℤ} {days : ℕ}
    {explore : ℕ → Bool} :
    ∀ {fuel day : ℕ} {s : SimState} {pr : SimState × DayRecord},
      pr ∈ simTrace p demands days explore day fuel s →
      ∃ d, pr.2 = (simStep p demands days d (explore d) pr.1).2 := by
  intro fuel
  induction fuel with
  | zero =>
    intro day s pr h
    simp [simTrace] at h
  | succ n ih =>
    intro day s pr h
    simp only [simTrace] at h
    rcases List.mem_cons.mp h with h1 | h2
    · subst h1
      exact ⟨day, rfl⟩
    · exact ih h2

theorem simStep_conservation (p : LoopParams) (demands : List ℤ) (days day : ℕ)
    (exploit : Bool) (s0 : SimState) :
    (simStep p demands days day exploit s0).2.sold =
      min (s0.stock + delivered_amount s0)
        ((simStep p demands days day exploit s0).2.demand) ∧
    (simStep p demands days day exploit s0).2.sold +
      (simStep p demands days day exploit s0).2.missed =
      (simStep p demands days day exploit s0).2.demand ∧
    (simStep p demands days day exploit s0).2.stock =
      s0.stock - (simStep p demands days day exploit s0).2.sold +
        delivered_amount s0 := by
  rw [simStep_snd_sold, simStep_snd_missed, simStep_snd_stock, simStep_snd_demand,
    deliveryPhase_stock]
  refine ⟨rfl, by ring, by ring⟩

theorem simStep_nonneg (p : LoopParams) (demands : List ℤ) (days day : ℕ)
    (exploit : Bool) (s0 : SimState)
    (hpend : 0 ≤ s0.pendingDelivery) (heoq : 0 ≤ p.eoq) :
    0 ≤ (simStep p demands days day exploit s0).1.stock ∧
    0 ≤ (simStep p demands days day exploit s0).1.pendingDelivery := by
  have hdel : 0 ≤ delivered_amount s0 := by
    unfold delivered_amount
    split_ifs <;> simp [hpend]
  constructor
  · rw [simStep_fst_stock, deliveryPhase_stock]
    have hmin := min_le_left (s0.stock + delivered_amount s0) (demands.getD day 0)
    omega
  · rw [simStep_fst_pendingDelivery]
    split_ifs
    · exact heoq
    · rw [deliveryPhase_pendingDelivery]
      split_ifs <;> simp [hpend]

theorem simStep_countdown (p : LoopParams) (demands : List ℤ) (days day : ℕ)
    (exploit : Bool) (s0 : SimState) (h : 2 ≤ s0.daysToDelivery) :
    (simStep p demands days day exploit s0).1.daysToDelivery = s0.daysToDelivery - 1 ∧
    (simStep p demands days day exploit s0).1.pendingDelivery = s0.pendingDelivery := by
  have hdec : (deliveryPhase s0).daysToDelivery = s0.daysToDelivery - 1 :=
    deliveryPhase_daysToDelivery s0
  have hne : (deliveryPhase s0).daysToDelivery ≠ 0 := by omega
  have hdo := sim_do_order_eq_false hne p demands day exploit
  constructor
  · rw [simStep_fst_daysToDelivery, hdo]
    simp [hdec]
  · rw [simStep_fst_pendingDelivery, hdo]
    simp only [Bool.false_eq_true, if_false]
    rw [deliveryPhase_pendingDelivery, if_neg (by omega)]

theorem simFrom_succ_fst (p : LoopParams) (demands : List ℤ) (days : ℕ)
    (explore : ℕ → Bool) (day fuel : ℕ) (s : SimState) :
    (simFrom p demands days explore day (fuel + 1) s).1 =
      (simFrom p demands days explore (day + 1) fuel
        (simStep p demands days day (explore day) s).1).1 := rfl

theorem simFrom_countdown (p : LoopParams) (demands : List ℤ) (days : ℕ)
    (explore : ℕ → Bool) :
    ∀ (j L day : ℕ) (s : SimState), s.daysToDelivery = L → j + 1 ≤ L →
      (simFrom p demands days explore day j s).1.daysToDelivery = L - j ∧
      (simFrom p demands days explore day j s).1.pendingDelivery = s.pendingDelivery := by
  intro j
  induction j with
  | zero =>
    intro L day s hL _
    exact ⟨by simpa [simFrom] using hL, rfl⟩
  | succ n ih =>
    intro L day s hL hj
    have hstep := simStep_countdown p demands days day (explore day) s (by omega)
    have hrec := ih (L - 1) (day + 1) (simStep p demands days day (explore day) s).1
      (by rw [hstep.1, hL]) (by omega)
    rw [simFrom_succ_fst]
    refine ⟨?_, ?_⟩
    · rw [hrec.1]
      omega
    · rw [hrec.2, hstep.2]

theorem simFrom_zero_lead (p : LoopParams) (demands : List ℤ) (days : ℕ)
    (explore : ℕ → Bool) (hlt : p.leadTime = 0) :
    ∀ (n day : ℕ) (s : SimState), s.daysToDelivery = 0 →
      (simFrom p demands days explore day n s).1.daysToDelivery = 0 := by
  intro n
  induction n with
  | zero =>
    intro day s hs
    simpa [simFrom] using hs
  | succ m ih =>
    intro day s hs
    rw [simFrom_succ_fst]
    refine ih (day + 1) _ ?_
    rw [simStep_fst_daysToDelivery, deliveryPhase_daysToDelivery, hs]
    split_ifs with h
    · exact hlt
    · rfl

/-! ### C6 -/

/-- C6: throughout every run of `simulate_policy`, on no simulated day is a
new order placed while `days_until_delivery > 0`: any day whose record shows
`action = "order"` had a zero delivery counter at decision time, and any day
with a positive decision-time counter waits and orders nothing, so at most one
outstanding order exists at any time. -/
theorem C6_no_overlapping_orders (p : LoopParams) (demands : List ℤ) (days : ℕ)
    (explore : ℕ → Bool) (day fuel : ℕ) (s : SimState)
    (pr : SimState × DayRecord)
    (hmem : pr ∈ simTrace p demands days explore day fuel s) :
    (pr.2.action = "order" → dtd_at_decision pr.1 = 0) ∧
    (dtd_at_decision pr.1 ≠ 0 → pr.2.action = "wait" ∧ pr.2.ordered = 0) := by
  obtain ⟨d, hd⟩ := simTrace_mem_step hmem
  rw [hd]
  exact simStep_guard p demands days d (explore d) pr.1

/-- C6 witness: in the two-day demo run, day 0 orders with a zero counter and
day 1 (delivery pending) waits and orders nothing. -/
theorem C6_witness :
    dtd_at_decision demoPr0.1 = 0 ∧
    demoPr1.2.action = "wait" ∧ demoPr1.2.ordered = 0 :=
  ⟨(C6_no_overlapping_orders demoP demoDemands 2 demoExplore 0 2 demoS demoPr0
      (List.mem_cons_self _ _)).1 rfl,
   (C6_no_overlapping_orders demoP demoDemands 2 demoExplore 0 2 demoS demoPr1
      (List.mem_cons_of_mem _ (List.mem_cons_self _ _))).2 (by decide)⟩

/-! ### C7 -/

/-- C7: on every simulated day units are conserved: `sold = min(stock, demand)`
on the post-delivery stock, `sold + missed = demand`, and
`stock_after = stock_before - sold + delivered_this_day`. -/
theorem C7_units_conserved (p : LoopParams) (demands : List ℤ) (days : ℕ)
    (explore : ℕ → Bool) (day fuel : ℕ) (s : SimState)
    (pr : SimState × DayRecord)
    (hmem : pr ∈ simTrace p demands days explore day fuel s) :
    pr.2.sold = min (pr.1.stock + delivered_amount pr.1) pr.2.demand ∧
    pr.2.sold + pr.2.missed = pr.2.demand ∧
    pr.2.stock = pr.1.stock - pr.2.sold + delivered_amount pr.1 := by
  obtain ⟨d, hd⟩ := simTrace_mem_step hmem
  rw [hd]
  exact simStep_conservation p demands days d (explore d) pr.1

/-- C7 witness: the conservation equations at day 0 of the demo run. -/
theorem C7_witness :
    demoPr0.2.sold = min (demoPr0.1.stock + delivered_amount demoPr0.1) demoPr0.2.demand ∧
    demoPr0.2.sold + demoPr0.2.missed = demoPr0.2.demand ∧
    demoPr0.2.stock = demoPr0.1.stock - demoPr0.2.sold + delivered_amount demoPr0.1 :=
  C7_units_conserved demoP demoDemands 2 demoExplore 0 2 demoS demoPr0
    (List.mem_cons_self _ _)

/-! ### C9 -/

/-- C9 (implicit): starting from a non-negative stock (with non-negative
pending delivery, and a non-negative EOQ as the source guarantees), the stock
level is non-negative after every simulated day and at the end of the run:
fulfilment sells only `min(stock, demand)` and deliveries only add. -/
theorem C9_stock_nonneg (p : LoopParams) (demands : List ℤ) (days : ℕ)
    (explore : ℕ → Bool) (heoq : 0 ≤ p.eoq) :
    ∀ (fuel day : ℕ) (s : SimState), 0 ≤ s.stock → 0 ≤ s.pendingDelivery →
      0 ≤ (simFrom p demands days explore day fuel s).1.stock ∧
      ∀ r ∈ (simFrom p demands days explore day fuel s).2, 0 ≤ r.stock := by
  intro fuel
  induction fuel with
  | zero =>
    intro day s h1 _h2
    exact ⟨h1, by simp [simFrom]⟩
  | succ n ih =>
    intro day s _h1 h2
    have hstep := simStep_nonneg p demands days day (explore day) s h2 heoq
    have ihx := ih (day + 1) (simStep p demands days day (explore day) s).1
      hstep.1 hstep.2
    refine ⟨ihx.1, ?_⟩
    intro r hr
    simp only [simFrom] at hr
    rcases List.mem_cons.mp hr with h | h
    · rw [h, simStep_snd_stock_eq_fst]
      exact hstep.1
    · exact ihx.2 r h

/-- C9 witness: the final stock of the demo run is non-negative. -/
theorem C9_witness :
    0 ≤ (simFrom demoP demoDemands 2 demoExplore 0 2 demoS).1.stock :=
  (C9_stock_nonneg demoP demoDemands 2 demoExplore (by decide) 2 0 demoS
    (by decide) (by decide)).1

/-! ### C10 -/

/-- C10 (implicit): with `lead_time = 0` the delivery counter stays 0 for the
whole run, so the delivery branch never fires (`delivered_amount` is 0 at
every reached state) while an order day still sets `pending_delivery` to the
EOQ, leaves the counter at 0, and charges the ordering cost — the ordered
units are never added to stock; with `lead_time ≥ 1`, a just-placed order
(counter = lead_time, pending = q0) delivers nothing on the first
`lead_time - 1` following days and delivers exactly `q0` on the
`lead_time`-th day. -/
theorem C10_lead_time_delivery (p : LoopParams) (demands : List ℤ) (days : ℕ)
    (explore : ℕ → Bool) (day : ℕ) (s : SimState) (q0 : ℤ) :
    (p.leadTime = 0 → s.daysToDelivery = 0 →
      (∀ n, (simFrom p demands days explore day n s).1.daysToDelivery = 0 ∧
        delivered_amount ((simFrom p demands days explore day n s).1) = 0) ∧
      ((simStep p demands days day (explore day) s).2.action = "order" →
        (simStep p demands days day (explore day) s).1.daysToDelivery = 0 ∧
        (simStep p demands days day (explore day) s).1.pendingDelivery = p.eoq ∧
        (simStep p demands days day (explore day) s).1.orderingCostTotal =
          s.orderingCostTotal + orderingCost)) ∧
    (1 ≤ p.leadTime → s.daysToDelivery = p.leadTime → s.pendingDelivery = q0 →
      (∀ j, j + 1 < p.leadTime →
        delivered_amount ((simFrom p demands days explore day j s).1) = 0) ∧
      delivered_amount
        ((simFrom p demands days explore day (p.leadTime - 1) s).1) = q0) := by
  constructor
  · intro hlt hs
    constructor
    · intro n
      have hdtd := simFrom_zero_lead p demands days explore hlt n day s hs
      refine ⟨hdtd, ?_⟩
      unfold delivered_amount
      rw [if_neg (by omega)]
    · intro ha
      have hdo := action_order_do ha
      refine ⟨?_, ?_, ?_⟩
      · rw [simStep_fst_daysToDelivery, hdo]
        simp [hlt]
      · rw [simStep_fst_pendingDelivery, hdo]
        simp
      · rw [simStep_fst_orderingCostTotal, hdo]
        simp [deliveryPhase_orderingCostTotal]
  · intro hl hs hq
    constructor
    · intro j hj
      obtain ⟨h1, _⟩ := simFrom_countdown p demands days explore j p.leadTime day s hs
        (by omega)
      unfold delivered_amount
      rw [if_neg (by omega)]
    · obtain ⟨h1, h2⟩ := simFrom_countdown p demands days explore (p.leadTime - 1)
        p.leadTime day s hs (by omega)
      unfold delivered_amount
      rw [if_pos (by omega), h2, hq]

/-- C10 witness: with zero lead time the counter is still 0 two days later and
an order day leaves `pending_delivery = 4` (the EOQ) with the counter at 0;
with lead time 2 the pending 5 units are not delivered on day 0 but are
delivered exactly on the second day. -/
theorem C10_witness :
    (simFrom zeroLeadP demoDemands 2 demoExplore 0 2 emptyQS).1.daysToDelivery = 0 ∧
    (simStep zeroLeadP demoDemands 2 0 (demoExplore 0) emptyQS).1.pendingDelivery =
      zeroLeadP.eoq ∧
    delivered_amount ((simFrom demoP demoDemands 2 demoExplore 0 0 pendingS).1) = 0 ∧
    delivered_amount ((simFrom demoP demoDemands 2 demoExplore 0 1 pendingS).1) = 5 := by
  refine ⟨?_, ?_, ?_, ?_⟩
  · exact (((C10_lead_time_delivery zeroLeadP demoDemands 2 demoExplore 0 emptyQS 0).1
      rfl rfl).1 2).1
  · exact (((C10_lead_time_delivery zeroLeadP demoDemands 2 demoExplore 0 emptyQS 0).1
      rfl rfl).2 rfl).2.1
  · exact (((C10_lead_time_delivery demoP demoDemands 2 demoExplore 0 pendingS 5).2
      (by decide) rfl rfl).1 0 (by decide))
  · exact (((C10_lead_time_delivery demoP demoDemands 2 demoExplore 0 pendingS 5).2
      (by decide) rfl rfl).2)

/-! ### C2 -/

theorem margin_key :
    sim_state_key marginP (marginDemands.getD 0 0) (deliveryPhase marginS).stock =
      "medium_high_medium_high" := by
  unfold sim_state_key state_to_key simDemandLevel sim_price_level marginP marginS
    marginDemands deliveryPhase
  norm_num
  decide

theorem margin_qlookup :
    qLookup (deliveryPhase marginS).q "medium_high_medium_high" = some (5, 0) := by
  rw [deliveryPhase_q]
  simp [marginS, qLookup]

theorem margin_do_true : sim_do_order marginP marginDemands 0 true marginS = true := by
  simp only [sim_do_order, sim_should_order]
  rw [margin_key, margin_qlookup]
  simp [deliveryPhase_daysToDelivery, marginS]

theorem margin_do_false : sim_do_order marginP marginDemands 0 false marginS = false := by
  simp only [sim_do_order, sim_should_order]
  rw [margin_key, margin_qlookup]
  simp [deliveryPhase_daysToDelivery, deliveryPhase_stock, delivered_amount, marginS,
    marginP]

/-- C2 counterexample: in `simulate_policy`'s exploitation branch the Q-entry
(order 5, wait 0) for the day's state key differs by only 5 ≤ 10, yet the
decision becomes "order" although the classical trigger (stock 100 > reorder
point 70) says wait — the 10.0 margin rule is absent from the simulation
loop. -/
theorem C2_counterexample :
    qLookup marginS.q
      (sim_state_key marginP (marginDemands.getD 0 0) (deliveryPhase marginS).stock) =
      some (5, 0) ∧
    (5 : ℚ) - 0 ≤ 10 ∧
    (simStep marginP marginDemands 2 0 false marginS).2.action = "wait" ∧
    (simStep marginP marginDemands 2 0 true marginS).2.action = "order" := by
  refine ⟨?_, by norm_num, ?_, ?_⟩
  · rw [margin_key]
    simp [marginS, qLookup]
  · rw [simStep_snd_action, margin_do_false]
    simp
  · rw [simStep_snd_action, margin_do_true]
    simp

/-- C2 amended: the 10.0 margin rule governs `calculate_optimal_order_quantity`
(when the table is consulted it overrides the classical trigger only when one
Q-value exceeds the other by more than 10, and the classical trigger decides
otherwise), but in `simulate_policy`'s exploitation branch the decision is
`q_order > q_wait` outright, with no margin and no recourse to the classical
trigger. -/
theorem C2_margin_rule :
    (∀ (stock rp : ℤ) (q : QTable) (sk : String) (qo qw : ℚ),
      qLookup q sk = some (qo, qw) →
      ((qw + 10 < qo → calc_should_order stock rp q sk true = true) ∧
       (qo + 10 < qw → calc_should_order stock rp q sk true = false) ∧
       (qo ≤ qw + 10 → qw ≤ qo + 10 →
         calc_should_order stock rp q sk true = decide (stock ≤ rp)))) ∧
    (∀ (p : LoopParams) (demands : List ℤ) (days day : ℕ) (s0 : SimState)
        (qo qw : ℚ),
      qLookup s0.q (sim_state_key p (demands.getD day 0) (deliveryPhase s0).stock) =
        some (qo, qw) →
      (simStep p demands days day true s0).2.action =
        (if qw < qo ∧ (deliveryPhase s0).daysToDelivery = 0 then "order"
         else "wait")) := by
  constructor
  · intro stock rp q sk qo qw h
    unfold calc_should_order
    rw [h]
    refine ⟨fun hgt => ?_, fun hgt => ?_, fun hle1 hle2 => ?_⟩
    · simp [hgt]
    · have hn : ¬(qw + 10 < qo) := by linarith
      simp [hn, hgt]
    · have hn1 : ¬(qw + 10 < qo) := by linarith
      have hn2 : ¬(qo + 10 < qw) := by linarith
      simp [hn1, hn2]
  · intro p demands days day s0 qo qw h
    rw [simStep_snd_action]
    simp only [sim_do_order, sim_should_order]
    rw [deliveryPhase_q, h]
    by_cases hc1 : qw < qo
    · by_cases hc2 : (deliveryPhase s0).daysToDelivery = 0
      · simp [hc1, hc2]
      · simp [hc1, hc2]
    · simp [hc1]

/-- C2 witness: the margin rule at concrete Q-values (20 beats 0 by more than
10; 5 does not and the classical trigger decides), and the margin-free
exploitation decision of the simulation loop ordering at a sub-margin gap. -/
theorem C2_witness :
    calc_should_order 100 70 [("k", (20, 0))] "k" true = true ∧
    calc_should_order 100 70 [("k", (5, 0))] "k" true = decide ((100 : ℤ) ≤ 70) ∧
    (simStep marginP marginDemands 2 0 true marginS).2.action = "order" := by
  refine ⟨?_, ?_, ?_⟩
  · exact (C2_margin_rule.1 100 70 [("k", (20, 0))] "k" 20 0 (by simp [qLookup])).1
      (by norm_num)
  · exact (C2_margin_rule.1 100 70 [("k", (5, 0))] "k" 5 0 (by simp [qLookup])).2.2
      (by norm_num) (by norm_num)
  · rw [C2_margin_rule.2 marginP marginDemands 2 0 marginS 5 0
      (by rw [margin_key]; simp [marginS, qLookup])]
    rw [if_pos ⟨by norm_num, by simp [deliveryPhase_daysToDelivery, marginS]⟩]

/-! ### C3 -/

/-- C3 counterexample: on an order day in `simulate_policy` the placed
quantity is the EOQ alone (100), not
`max(0, EOQ - current_stock + reorder_point)` (170). -/
theorem C3_counterexample :
    (simStep marginP marginDemands 2 0 false emptyQS).2.action = "order" ∧
    (simStep marginP marginDemands 2 0 false emptyQS).1.pendingDelivery = 100 ∧
    (simStep marginP marginDemands 2 0 false emptyQS).2.ordered = 100 ∧
    (100 : ℤ) ≠ max 0 (marginP.eoq - emptyQS.stock + marginP.reorderPoint) := by
  refine ⟨rfl, rfl, rfl, by decide⟩

/-- C3 amended: in `calculate_optimal_order_quantity` an order's quantity is
`max(0, EOQ - current_stock + reorder_point)`; in `simulate_policy` an order
day instead sets both the ordered quantity and the pending delivery to the
EOQ alone. -/
theorem C3_order_quantity :
    (∀ (eoq stock rp : ℤ),
      calc_order_quantity true eoq stock rp = max 0 (eoq - stock + rp)) ∧
    (∀ (p : LoopParams) (demands : List ℤ) (days day : ℕ) (exploit : Bool)
        (s0 : SimState),
      (simStep p demands days day exploit s0).2.action = "order" →
      (simStep p demands days day exploit s0).1.pendingDelivery = p.eoq ∧
      (simStep p demands days day exploit s0).2.ordered = p.eoq) := by
  refine ⟨fun eoq stock rp => rfl, ?_⟩
  intro p demands days day exploit s0 h
  have hdo := action_order_do h
  rw [simStep_fst_pendingDelivery, simStep_snd_ordered, hdo]
  simp

/-- C3 witness: the calculator's quantity formula at (EOQ 100, stock 0,
reorder point 70) and the loop's order day placing exactly the EOQ. -/
theorem C3_witness :
    calc_order_quantity true 100 0 70 = max 0 (100 - 0 + 70) ∧
    (simStep marginP marginDemands 2 0 false emptyQS).1.pendingDelivery =
      marginP.eoq :=
  ⟨C3_order_quantity.1 100 0 70,
   (C3_order_quantity.2 marginP marginDemands 2 0 false emptyQS rfl).1⟩

/-! ### C1 -/

/-- C1 counterexample: with pricing/supplier data present and an empty sales
history, `simulate_policy` does not abort: it returns a `SimulationResult`,
not the `{"error": ...}` object the claim requires. -/
theorem C1_counterexample :
    exceptIsOk (simulate_policy noHistoryInputs 2 0 0 demoExplore [1, 1] []) = true ∧
    noHistoryInputs.demandHistory = [] ∧
    noHistoryInputs.priceCost ≠ none := by
  refine ⟨rfl, rfl, by decide⟩

/-- C1 amended: missing pricing/supplier data is the only condition that
aborts `simulate_policy` with the structured error object; when pricing
exists but the sales history is empty, the run proceeds with the fallback
`mean_demand = 10`, `std_demand = 3` and returns a `SimulationResult`. -/
theorem C1_missing_data (inp : SimInputs) (days : ℕ) (rp eoq : ℤ)
    (explore : ℕ → Bool) (synth : List ℤ) (qInit : QTable) :
    (inp.priceCost = none →
      simulate_policy inp days rp eoq explore synth qInit =
        .error "No pricing or supplier data available") ∧
    (∀ pc, inp.priceCost = some pc →
      exceptIsOk (simulate_policy inp days rp eoq explore synth qInit) = true) ∧
    sim_mean_demand [] = 10 ∧ sim_std_demand [] = 3 := by
  refine ⟨?_, ?_, by simp [sim_mean_demand], by simp [sim_std_demand]⟩
  · intro h
    unfold simulate_policy
    rw [h]
  · intro pc h
    unfold simulate_policy
    rw [h]
    rfl

/-- C1 witness: the error return with no pricing row, and a successful result
with pricing present and no sales history. -/
theorem C1_witness :
    simulate_policy noPricingInputs 2 0 0 demoExplore [1, 1] [] =
      .error "No pricing or supplier data available" ∧
    exceptIsOk (simulate_policy noHistoryInputs 3 0 0 demoExplore [1, 1, 1] []) =
      true :=
  ⟨(C1_missing_data noPricingInputs 2 0 0 demoExplore [1, 1] []).1 rfl,
   (C1_missing_data noHistoryInputs 3 0 0 demoExplore [1, 1, 1] []).2.1 (12, 5) rfl⟩

/-! ### C8 -/

/-- C8: `simulate_policy` is deterministic: two runs over the same inputs with
the same seeded random streams (exploration draws and synthesized demand) and
a freshly-initialized empty Q-table produce identical `daily_results`
sequences. -/
theorem C8_deterministic (inp1 inp2 : SimInputs) (days : ℕ) (rp eoq : ℤ)
    (explore1 explore2 : ℕ → Bool) (synth1 synth2 : List ℤ)
    (h1 : inp1 = inp2) (h2 : explore1 = explore2) (h3 : synth1 = synth2) :
    Except.map SimResult.dailyResults
      (simulate_policy inp1 days rp eoq explore1 synth1 []) =
    Except.map SimResult.dailyResults
      (simulate_policy inp2 days rp eoq explore2 synth2 []) := by
  subst h1
  subst h2
  subst h3
  rfl

/-- C8 witness: the determinism theorem applied to a concrete two-day run. -/
theorem C8_witness :
    Except.map SimResult.dailyResults
      (simulate_policy noHistoryInputs 2 0 0 demoExplore [1, 1] []) =
    Except.map SimResult.dailyResults
      (simulate_policy noHistoryInputs 2 0 0 demoExplore [1, 1] []) :=
  C8_deterministic noHistoryInputs noHistoryInputs 2 0 0 demoExplore demoExplore
    [1, 1] [1, 1] rfl rfl rfl

end SmartRetail
